import Mathlib

/-!
Shallow embedding of the video viewing-progress simulation engine of this
repository (`src/core/course_progress.py`, chiefly `run_course_session` and
its inner helpers `calculate_coverage` and `is_video_completed`), together
with theorems checking the specification's claims about it.

Conventions of the embedding:
* Python floats are modelled as `ℚ`; millisecond timestamps as `ℤ`.
* The random draws (`random.uniform`, `random.randint`), the wall clock
  (`time.time()`), and the network responses are oracle inputs supplied to
  each step; the source's ranges for the random draws are captured by the
  `*_range` predicates quoted from the corresponding lines.
* A fallible network call is an `Option`/outcome input: `none` stands for the
  branch in which the surrounding `try`/`except` caught an exception.
-/

namespace YuKeTang

/-- Python `int(x)` truncation toward zero, on a rational. -/
def pyInt (x : ℚ) : ℤ := if 0 ≤ x then ⌊x⌋ else ⌈x⌉

/-- Python `round(x, 2)` (line 280, `"cp": round(current_cp, 2)`), rounding to
two decimal places. Python rounds ties to even; the tie behaviour is
irrelevant to every claim, and ties are modelled here as round-half-up. -/
def round2 (x : ℚ) : ℚ := ((round (x * 100) : ℤ) : ℚ) / 100

/-- Line 217: `COVERAGE_THRESHOLD = 100.0`. -/
def COVERAGE_THRESHOLD : ℚ := 100

/-- Lines 212-215: `calculate_coverage(watch_len, video_len)`; the guard
`if not video_len or video_len <= 0: return 0.0` is rendered as the
disjunction `video_len = 0 ∨ video_len ≤ 0` (numeric falsiness is equality
with zero). -/
def calculate_coverage (watch_len video_len : ℚ) : ℚ :=
  if video_len = 0 ∨ video_len ≤ 0 then 0
  else min 100 (watch_len / video_len * 100)

/-- Lines 229-233: `is_video_completed(watch_len, video_len, server_completed)`.
The `server_completed` argument is received but never read by the source. -/
def is_video_completed (watch_len video_len : ℚ) (server_completed : ℤ) : Bool :=
  decide (calculate_coverage watch_len video_len ≥ COVERAGE_THRESHOLD)

/-- Decision taken on an item before the while loop (lines 235-243): skip the
item as already complete, or warn (server `completed` flag set while coverage
is below threshold) and fall through into the loop, or fall through silently. -/
inductive StartDecision where
  | skipCompleted
  | warnContinue
  | proceed
deriving DecidableEq

/-- Lines 235-243: the pre-loop decision on one item. -/
def itemStartDecision (watched_seconds d : ℚ) (completed_flag : ℤ) : StartDecision :=
  if is_video_completed watched_seconds d completed_flag then .skipCompleted
  else if completed_flag = 1 then .warnContinue
  else .proceed

/-- The per-item mutable loop state of `run_course_session`
(lines 196-227 initialise it; the while loop of lines 245-389 updates it). -/
structure ItemState where
  d : ℚ
  watched_seconds : ℚ
  completed_flag : ℤ
  current_cp : ℚ
  ts_pointer : ℤ
  is_restarting : Bool
  last_watched_before_restart : ℚ
  stuck_reset_notice_shown : Bool
deriving DecidableEq

/-- Fields of one progress-poll response that the loop reads
(lines 344-353): `watch_length` (`none` models a JSON null, making
`has_watched is not None` false), `video_length` (`none` models a missing or
unparsable field, leaving `d` unchanged), `completed`. -/
structure PollData where
  watch_length : Option ℚ
  video_length : Option ℤ
  completed : ℤ
deriving DecidableEq

/-- Outcome of one heartbeat POST attempt (lines 316-332): an HTTP status, or
a raised transport exception. -/
inductive HbAttempt where
  | ok (status : ℤ)
  | exc
deriving DecidableEq

/-- An attempt fails when the POST raised or returned a non-200 status. -/
def attemptFails : HbAttempt → Bool
  | .ok s => decide (s ≠ 200)
  | .exc => true

/-- Lines 314-332: the heartbeat retry loop, `for retry in range(3)`.
Returns (attempts made, success, number of 0.5 s sleeps taken between
consecutive attempts). The `rest.isEmpty` test renders
`retry < max_retries - 1` being false on the final attempt; the loop is
always invoked on a list of exactly 3 attempt outcomes. -/
def hbRetryLoop : List HbAttempt → ℕ × Bool × ℕ
  | [] => (0, false, 0)
  | o :: rest =>
    if attemptFails o = false then (1, true, 0)
    else if rest.isEmpty then (1, false, 0)
    else
      let r := hbRetryLoop rest
      (r.1 + 1, r.2.1, r.2.2 + 1)

/-- Oracle inputs consumed by one iteration of the while loop:
`increment` (line 246), `jitter` (the `random.randint(100, 500)` of line 249),
the three heartbeat attempt outcomes (lines 315-332), the progress poll
result (lines 339-344, `none` when `session.get` raised), and the wall clock
sampled at line 386 for a restart. -/
structure TickInput where
  increment : ℚ
  jitter : ℤ
  hb1 : HbAttempt
  hb2 : HbAttempt
  hb3 : HbAttempt
  poll : Option PollData
  wall_ms : ℤ
deriving DecidableEq

/-- Fields of the heartbeat payload that the claims are about
(lines 273-300): `cp` (line 280), `ts` (line 284), `d` (line 292). -/
structure Heartbeat where
  cp : ℚ
  ts : ℤ
  d : ℤ
deriving DecidableEq

/-- Heartbeat payload built from the state at the send point. -/
def mkHeartbeat (st : ItemState) : Heartbeat :=
  { cp := round2 st.current_cp, ts := st.ts_pointer, d := pyInt st.d }

/-- Lines 246-249: per-tick advance before the send. `current_cp` is clamped
at `d`; `ts_pointer` advances by `int(increment / simulated_rate * 1000 +
jitter)`. -/
def advance (rate : ℚ) (inp : TickInput) (st : ItemState) : ItemState :=
  { st with
    current_cp := min st.d (st.current_cp + inp.increment),
    ts_pointer := st.ts_pointer + pyInt (inp.increment / rate * 1000 + inp.jitter) }

/-- Lines 345-367: ingest one progress-poll response. Refine `d` from
`video_length` when `d == 0` (lines 347-351), take the `completed` flag
(line 353), then merge `watch_length` (lines 355-367): in the restarting
phase the new value is accepted only when it regressed below 80% of the
pre-restart snapshot or exceeds the previous watched value, and the phase is
exited when the accepted value is below 20% of `d`; in the normal phase the
cursor is raised only when the server value exceeds it and the watched value
is adopted unconditionally. -/
def mergePoll (st : ItemState) (p : PollData) : ItemState :=
  let d1 : ℚ := if st.d = 0 then
      (match p.video_length with
        | some n => (n : ℚ)
        | none => st.d)
    else st.d
  let st1 := { st with d := d1, completed_flag := p.completed }
  match p.watch_length with
  | none => st1
  | some has_watched =>
    if st1.is_restarting then
      if has_watched < st1.last_watched_before_restart * (8/10)
          ∨ has_watched > st1.watched_seconds then
        let st2 := { st1 with watched_seconds := has_watched }
        if has_watched < st2.d * (2/10) then
          { st2 with is_restarting := false,
                     current_cp := max st2.current_cp has_watched }
        else
          { st2 with current_cp := max st2.current_cp has_watched }
      else st1
    else
      { st1 with
        current_cp := if has_watched > st1.current_cp then has_watched
                      else st1.current_cp,
        watched_seconds := has_watched }

/-- How one while-loop iteration ended: `completedBreak` is the `break` of
line 376, `restarted` the `continue` of line 389, `pollFailed` the `continue`
of line 343, `normal` falls to the next iteration. -/
inductive TickOutcome where
  | completedBreak
  | restarted
  | pollFailed
  | normal
deriving DecidableEq

/-- Everything one while-loop iteration produced: the updated state, the
heartbeat payload it sent, the retry statistics of the send, whether the
restart warning of lines 380-382 was logged, and how the iteration ended. -/
structure TickResult where
  st : ItemState
  hb : Heartbeat
  hbAttempts : ℕ
  hbSuccess : Bool
  hbSleeps : ℕ
  warned : Bool
  outcome : TickOutcome
deriving DecidableEq

/-- One iteration of the while loop (lines 245-389): advance and send the
heartbeat, poll progress (a raised exception is `continue`), merge, break on
completion, or perform the stall-to-restart transition of lines 378-389. -/
def tick (rate : ℚ) (st0 : ItemState) (inp : TickInput) : TickResult :=
  let st1 := advance rate inp st0
  let hb := mkHeartbeat st1
  let send := hbRetryLoop [inp.hb1, inp.hb2, inp.hb3]
  match inp.poll with
  | none => ⟨st1, hb, send.1, send.2.1, send.2.2, false, .pollFailed⟩
  | some p =>
    let st2 := mergePoll st1 p
    if is_video_completed st2.watched_seconds st2.d st2.completed_flag then
      ⟨st2, hb, send.1, send.2.1, send.2.2, false, .completedBreak⟩
    else if st2.d ≤ st2.current_cp ∧
        calculate_coverage st2.watched_seconds st2.d < COVERAGE_THRESHOLD then
      ⟨{ st2 with
          stuck_reset_notice_shown := true,
          current_cp := 0,
          last_watched_before_restart := st2.watched_seconds,
          ts_pointer := inp.wall_ms,
          is_restarting := true },
        hb, send.1, send.2.1, send.2.2, !st2.stuck_reset_notice_shown, .restarted⟩
    else
      ⟨st2, hb, send.1, send.2.1, send.2.2, false, .normal⟩

/-- The while loop of lines 245-389, driven by a finite prefix of oracle
inputs: the condition of line 245 is re-checked before every iteration and
`completedBreak` stops the run. -/
def runLoop (rate : ℚ) : ItemState → List TickInput → ItemState × List TickResult
  | st, [] => (st, [])
  | st, inp :: rest =>
    if is_video_completed st.watched_seconds st.d st.completed_flag then (st, [])
    else
      let r := tick rate st inp
      match r.outcome with
      | .completedBreak => (r.st, [r])
      | _ =>
        let k := runLoop rate r.st rest
        (k.1, r :: k.2)

/-- Lines 219-220: the initial simulated cursor. `warmup` stands for the
value drawn by `random.uniform(5, min(60, max(10, d * 0.1)))`; the Python
conditional `watched_seconds if watched_seconds else ...` tests numeric
truthiness, i.e. `watched_seconds ≠ 0`. -/
def seed_current_cp (watched_seconds warmup : ℚ) : ℚ :=
  if watched_seconds = 0 then warmup else watched_seconds

/-- Lines 219-220: the range of the warm-up draw for a duration `d`. -/
def warmup_range (d warmup : ℚ) : Prop :=
  5 ≤ warmup ∧ warmup ≤ min 60 (max 10 (d * (1/10)))

instance (d w : ℚ) : Decidable (warmup_range d w) :=
  inferInstanceAs (Decidable (_ ∧ _))

/-- Stated from the spec, for comparison with `seed_current_cp`: "Seed
`simulatedCursor` to the larger of `serverWatchedSeconds` or a small
randomized warm-up value". -/
def spec_seed_current_cp (watched_seconds warmup : ℚ) : ℚ :=
  max watched_seconds warmup

/-- Stated from the spec, for comparison with `warmup_range`: the warm-up is
"bounded to at most 10% of duration or 60 seconds, whichever is smaller, with
a floor of 5 seconds". -/
def spec_warmup_range (d warmup : ℚ) : Prop :=
  5 ≤ warmup ∧ warmup ≤ min (d * (1/10)) 60

instance (d w : ℚ) : Decidable (spec_warmup_range d w) :=
  inferInstanceAs (Decidable (_ ∧ _))

/-- Lines 246 and 249: the ranges of the per-tick random draws for a
duration `d`. -/
def tick_input_range (d : ℚ) (inp : TickInput) : Prop :=
  max 2 (d * (1/100)) ≤ inp.increment ∧ inp.increment ≤ max 5 (d * (5/100))
  ∧ 100 ≤ inp.jitter ∧ inp.jitter ≤ 500

instance (d : ℚ) (inp : TickInput) : Decidable (tick_input_range d inp) :=
  inferInstanceAs (Decidable (_ ∧ _ ∧ _ ∧ _))

/-- Line 221: `simulated_rate = random.uniform(0.9, 1.25)`. -/
def rate_range (rate : ℚ) : Prop := 9/10 ≤ rate ∧ rate ≤ 5/4

instance (rate : ℚ) : Decidable (rate_range rate) :=
  inferInstanceAs (Decidable (_ ∧ _))

/-- Lines 196-204: refinement of a zero metadata duration from the progress
response's `video_length` field (`int(video_data.get('video_length', d))`,
guarded by `try`/`except`; `none` covers both the missing field — whose
default re-reads the zero `d` — and a failed parse). -/
def resolve_duration (d : ℚ) (video_length : Option ℤ) : ℚ :=
  if d = 0 then
    (match video_length with
      | some n => (n : ℚ)
      | none => d)
  else d

/-- Terminal classification of one item by the session driver. -/
inductive ItemOutcome where
  | unplayable
  | alreadyCompleted
  | ran (flagWarned : Bool)
deriving DecidableEq

/-- Per-item inputs of the session driver: the metadata duration (line 180),
the fallback `video_length` (line 201), the initial poll's `watch_length` and
`completed` (lines 205-206), the warm-up and rate draws (lines 219-221), the
starting timestamp (line 184), and the oracle inputs of the loop ticks. -/
structure ItemParams where
  d_meta : ℚ
  video_length : Option ℤ
  watched_seconds : ℚ
  completed_flag : ℤ
  warmup : ℚ
  rate : ℚ
  ts0 : ℤ
  ticks : List TickInput
deriving DecidableEq

/-- Lines 196-389: processing of one video item. The guard of line 208
(`if not d or d <= 0`) classifies the item unplayable before any heartbeat;
the check of line 235 skips an item already at full coverage; otherwise the
while loop runs, and `ran` records whether the warning of lines 240-243
(server `completed` flag set, coverage below threshold) was logged. -/
def processItem (p : ItemParams) : ItemOutcome × List TickResult :=
  let d := resolve_duration p.d_meta p.video_length
  if d = 0 ∨ d ≤ 0 then (.unplayable, [])
  else if is_video_completed p.watched_seconds d p.completed_flag then
    (.alreadyCompleted, [])
  else
    let st0 : ItemState := {
      d := d,
      watched_seconds := p.watched_seconds,
      completed_flag := p.completed_flag,
      current_cp := seed_current_cp p.watched_seconds p.warmup,
      ts_pointer := p.ts0,
      is_restarting := false,
      last_watched_before_restart := p.watched_seconds,
      stuck_reset_notice_shown := false }
    (.ran (decide (p.completed_flag = 1)), (runLoop p.rate st0 p.ticks).2)

/-- The session driver's per-item iteration (lines 168-389): items are
processed strictly in order and every item is processed. -/
def runItems (items : List ItemParams) : List (ItemOutcome × List TickResult) :=
  items.map processItem

/-- Heartbeat payloads emitted by a run. -/
def heartbeats (trs : List TickResult) : List Heartbeat := trs.map (·.hb)

/-- Number of stall-to-restart warnings (lines 380-382) logged in a run. -/
def countRestartWarnings (trs : List TickResult) : ℕ :=
  (trs.filter (·.warned)).length

/-! Helper lemmas shared by the claim theorems. -/

lemma is_video_completed_iff (w d : ℚ) (f : ℤ) :
    is_video_completed w d f = true ↔ 100 ≤ calculate_coverage w d := by
  simp [is_video_completed, COVERAGE_THRESHOLD, ge_iff_le]

lemma is_video_completed_false (w d : ℚ) (f : ℤ)
    (h : calculate_coverage w d < 100) : is_video_completed w d f = false := by
  rw [← Bool.not_eq_true, is_video_completed_iff]
  exact not_le.mpr h

lemma coverage_ge_iff (w d : ℚ) (hd : 0 < d) :
    100 ≤ calculate_coverage w d ↔ d ≤ w := by
  unfold calculate_coverage
  rw [if_neg (by push_neg; exact ⟨hd.ne', hd⟩)]
  rw [le_min_iff]
  constructor
  · rintro ⟨-, h⟩
    rw [div_mul_eq_mul_div, le_div_iff hd] at h
    linarith
  · intro h
    refine ⟨le_refl _, ?_⟩
    rw [div_mul_eq_mul_div, le_div_iff hd]
    linarith

lemma mergePoll_stuck (st : ItemState) (p : PollData) :
    (mergePoll st p).stuck_reset_notice_shown = st.stuck_reset_notice_shown := by
  unfold mergePoll
  cases p.watch_length <;> dsimp only <;> split_ifs <;> rfl

lemma mergePoll_ts (st : ItemState) (p : PollData) :
    (mergePoll st p).ts_pointer = st.ts_pointer := by
  unfold mergePoll
  cases p.watch_length <;> dsimp only <;> split_ifs <;> rfl

/-! ## C1: completion judged strictly from server coverage; flag ignored -/

/-- C1. For every `serverWatchedSeconds = w ≥ 0` and `duration = d > 0`, the
completion evaluator `is_video_completed` is flag-independent, returns `true`
iff `calculate_coverage w d ≥ 100`, equivalently iff `w ≥ d`; and when the
server `completed` flag is 1 while coverage is below the threshold, the
pre-loop decision is only a warning followed by continued processing
(`warnContinue`), never a skip. -/
theorem C1_completion_from_server_coverage_only (w d : ℚ) (f g : ℤ)
    (hd : 0 < d) (hw : 0 ≤ w) :
    is_video_completed w d f = is_video_completed w d g
    ∧ (is_video_completed w d f = true ↔ 100 ≤ calculate_coverage w d)
    ∧ (is_video_completed w d f = true ↔ d ≤ w)
    ∧ (f = 1 → calculate_coverage w d < 100 →
        itemStartDecision w d f = .warnContinue) := by
  refine ⟨rfl, is_video_completed_iff w d f, ?_, ?_⟩
  · rw [is_video_completed_iff, coverage_ge_iff w d hd]
  · intro hf hcov
    unfold itemStartDecision
    rw [is_video_completed_false w d f hcov]
    simp [hf]

/-- Witness for C1 at `w = 3`, `d = 5`, flags `1` and `0`. -/
theorem C1_completion_witness :
    is_video_completed 3 5 1 = is_video_completed 3 5 0
    ∧ (is_video_completed 3 5 1 = true ↔ 100 ≤ calculate_coverage 3 5)
    ∧ (is_video_completed 3 5 1 = true ↔ (5 : ℚ) ≤ 3)
    ∧ ((1 : ℤ) = 1 → calculate_coverage 3 5 < 100 →
        itemStartDecision 3 5 1 = .warnContinue) :=
  C1_completion_from_server_coverage_only 3 5 1 0 (by norm_num) (by norm_num)

/-! ## C10: coverage is total and guarded against non-positive durations -/

/-- C10. For every watch length `w`, a duration that is zero, negative, or
otherwise falsy makes `calculate_coverage` return exactly `0` (the guard of
lines 213-214), so no division by the duration is ever performed there. -/
theorem C10_coverage_guarded (w d : ℚ) (hd : d ≤ 0) :
    calculate_coverage w d = 0 := by
  unfold calculate_coverage
  rw [if_pos (Or.inr hd)]

/-- Witness for C10 at `w = 37`, `d = 0`. -/
theorem C10_coverage_guarded_witness : calculate_coverage 37 0 = 0 :=
  C10_coverage_guarded 37 0 (by norm_num)

/-! ## C2: unresolvable or non-positive duration means Unplayable, no
heartbeats, processing continues -/

/-- C2. For every item whose duration is still `≤ 0` (or zero, i.e. falsy)
after the metadata fetch and the `video_length` fallback, `processItem`
classifies the item unplayable, emits zero heartbeats and no error (it
returns normally), and the session driver goes on to process the remaining
items unchanged. -/
theorem C2_unplayable_skipped (p : ItemParams)
    (h : resolve_duration p.d_meta p.video_length ≤ 0) :
    processItem p = (.unplayable, [])
    ∧ heartbeats (processItem p).2 = []
    ∧ ∀ rest, runItems (p :: rest) = (.unplayable, []) :: runItems rest := by
  have h1 : processItem p = (.unplayable, []) := by
    unfold processItem
    rw [if_pos (Or.inr h)]
  refine ⟨h1, by rw [h1]; rfl, ?_⟩
  intro rest
  unfold runItems
  rw [List.map_cons, h1]

/-- Witness for C2: metadata duration 0 with no usable `video_length`. -/
theorem C2_unplayable_witness :
    processItem ⟨0, none, 0, 0, 5, 1, 0, []⟩ = (.unplayable, [])
    ∧ runItems [⟨0, none, 0, 0, 5, 1, 0, []⟩] = [(.unplayable, [])] := by
  have h := C2_unplayable_skipped ⟨0, none, 0, 0, 5, 1, 0, []⟩
    (by norm_num [resolve_duration])
  exact ⟨h.1, by simpa [runItems] using h.2.2 []⟩

/-! ## C5: the normal-phase merge (lines 364-367) -/

/-- C5 counterexample. The claim says the locally tracked watched value
"never decreases as a result of a normal-phase merge", but the merge of
line 367 adopts the server value unconditionally: from
`watched_seconds = 50`, a poll reporting `watch_length = 30` drops the
tracked value to 30. -/
theorem C5_counterexample_watched_decreases :
    (mergePoll ⟨100, 50, 0, 60, 0, false, 0, false⟩
        ⟨some 30, none, 0⟩).watched_seconds = 30
    ∧ (30 : ℚ) < 50 := by
  constructor
  · rfl
  · norm_num

/-- C5 amended. In the normal (non-restarting) phase, after a poll reporting
`watch_length = hw` the merge adopts `hw` as the tracked watched value
unconditionally — in particular whenever it exceeds the old value, but the
tracked value can also decrease when the server reports less; the cursor is
raised to `hw` exactly when `hw` exceeds the cursor, and the cursor itself
never decreases in a merge. -/
theorem C5_normal_merge_adopts_server_value (st : ItemState) (p : PollData)
    (hw : ℚ) (hrest : st.is_restarting = false)
    (hwl : p.watch_length = some hw) :
    (mergePoll st p).watched_seconds = hw
    ∧ (mergePoll st p).current_cp
        = (if hw > st.current_cp then hw else st.current_cp)
    ∧ st.current_cp ≤ (mergePoll st p).current_cp := by
  unfold mergePoll
  rw [hwl]
  dsimp only
  rw [if_neg (by rw [hrest]; exact Bool.false_ne_true)]
  refine ⟨rfl, rfl, ?_⟩
  dsimp only
  split_ifs with h
  · exact le_of_lt h
  · exact le_refl _

/-- Witness for C5 (amended) at a concrete state and poll. -/
theorem C5_normal_merge_witness :
    (mergePoll ⟨100, 50, 0, 40, 0, false, 0, false⟩
        ⟨some 45, none, 0⟩).watched_seconds = 45
    ∧ (mergePoll ⟨100, 50, 0, 40, 0, false, 0, false⟩
        ⟨some 45, none, 0⟩).current_cp
        = (if (45 : ℚ) > 40 then 45 else 40)
    ∧ (40 : ℚ) ≤ (mergePoll ⟨100, 50, 0, 40, 0, false, 0, false⟩
        ⟨some 45, none, 0⟩).current_cp :=
  C5_normal_merge_adopts_server_value ⟨100, 50, 0, 40, 0, false, 0, false⟩
    ⟨some 45, none, 0⟩ 45 rfl rfl

/-! ## C4: exit from the restarting phase (lines 355-363) -/

/-- C4 counterexample. The claim says that while restarting, observing any
server watched value below 20% of the duration exits the restarting phase.
With `d = 10`, pre-restart snapshot 2 and tracked watched value 2, a poll
reporting `watch_length = 19/10` is below `0.2 * d = 2` yet fails the
acceptance guard of line 357 (`19/10 ≥ 0.8 * 2` and `19/10 ≤ 2`), so
`is_restarting` stays `true`. -/
theorem C4_counterexample_unaccepted_low_watch :
    (mergePoll ⟨10, 2, 0, 3, 0, true, 2, true⟩
        ⟨some (19/10), none, 0⟩).is_restarting = true
    ∧ (19/10 : ℚ) < 10 * (2/10) := by
  constructor
  · norm_num [mergePoll]
  · norm_num

/-- C4 amended. While restarting, as soon as a poll observes a watched value
`hw` that is *accepted* by the guard of line 357 (it regressed below 80% of
the pre-restart snapshot, or exceeds the tracked watched value) and `hw` is
below 20% of the duration, the engine exits the restarting phase and the
cursor is raised to at least `hw`. -/
theorem C4_restart_exit_on_accepted_low_watch (st : ItemState) (p : PollData)
    (hw : ℚ) (hd : ¬ st.d = 0) (hrest : st.is_restarting = true)
    (hwl : p.watch_length = some hw)
    (hacc : hw < st.last_watched_before_restart * (8/10)
            ∨ hw > st.watched_seconds)
    (hlow : hw < st.d * (2/10)) :
    (mergePoll st p).is_restarting = false
    ∧ hw ≤ (mergePoll st p).current_cp := by
  unfold mergePoll
  rw [hwl]
  dsimp only
  rw [if_neg hd]
  rw [if_pos hrest, if_pos hacc, if_pos hlow]
  exact ⟨rfl, le_max_right _ _⟩

/-- Witness for C4 (amended): `d = 10`, snapshot 2, observed value 1. -/
theorem C4_restart_exit_witness :
    (mergePoll ⟨10, 2, 0, 3, 0, true, 2, true⟩
        ⟨some 1, none, 0⟩).is_restarting = false
    ∧ (1 : ℚ) ≤ (mergePoll ⟨10, 2, 0, 3, 0, true, 2, true⟩
        ⟨some 1, none, 0⟩).current_cp :=
  C4_restart_exit_on_accepted_low_watch ⟨10, 2, 0, 3, 0, true, 2, true⟩
    ⟨some 1, none, 0⟩ 1 (by norm_num) rfl rfl
    (Or.inl (by norm_num)) (by norm_num)

/-! ## C3: the stall-to-restart transition and its once-per-item warning -/

lemma advance_stuck (rate : ℚ) (inp : TickInput) (st : ItemState) :
    (advance rate inp st).stuck_reset_notice_shown
      = st.stuck_reset_notice_shown := rfl

lemma tick_stuck_mono (rate : ℚ) (st : ItemState) (inp : TickInput)
    (h : st.stuck_reset_notice_shown = true) :
    (tick rate st inp).st.stuck_reset_notice_shown = true := by
  simp only [tick]
  cases hp : inp.poll with
  | none => simpa [advance_stuck] using h
  | some p =>
    dsimp only
    split_ifs with h1 h2
    · rw [mergePoll_stuck, advance_stuck]; exact h
    · rfl
    · rw [mergePoll_stuck, advance_stuck]; exact h

lemma tick_warned_false (rate : ℚ) (st : ItemState) (inp : TickInput)
    (h : st.stuck_reset_notice_shown = true) :
    (tick rate st inp).warned = false := by
  simp only [tick]
  cases hp : inp.poll with
  | none => rfl
  | some p =>
    dsimp only
    split_ifs with h1 h2
    · rfl
    · show (!(mergePoll (advance rate inp st) p).stuck_reset_notice_shown) = false
      rw [mergePoll_stuck, advance_stuck, h]
      rfl
    · rfl

lemma tick_warned_stuck (rate : ℚ) (st : ItemState) (inp : TickInput)
    (h : (tick rate st inp).warned = true) :
    (tick rate st inp).st.stuck_reset_notice_shown = true := by
  revert h
  simp only [tick]
  cases hp : inp.poll with
  | none => intro h; exact absurd h (by simp)
  | some p =>
    dsimp only
    split_ifs with h1 h2
    · intro h; exact absurd h (by simp)
    · intro _; rfl
    · intro h; exact absurd h (by simp)

lemma countRestartWarnings_cons (r : TickResult) (rs : List TickResult) :
    countRestartWarnings (r :: rs)
      = (if r.warned then 1 else 0) + countRestartWarnings rs := by
  unfold countRestartWarnings
  rw [List.filter_cons]
  split_ifs <;> simp [Nat.add_comm]

lemma runLoop_warn_zero (rate : ℚ) (st : ItemState) (inputs : List TickInput)
    (h : st.stuck_reset_notice_shown = true) :
    countRestartWarnings (runLoop rate st inputs).2 = 0 := by
  induction inputs generalizing st with
  | nil => rfl
  | cons inp rest ih =>
    simp only [runLoop]
    split_ifs with hc
    · rfl
    · try dsimp only
      cases ho : (tick rate st inp).outcome with
      | completedBreak =>
        try dsimp only
        rw [countRestartWarnings_cons, tick_warned_false rate st inp h]
        rfl
      | restarted =>
        try dsimp only
        rw [countRestartWarnings_cons, tick_warned_false rate st inp h,
          ih _ (tick_stuck_mono rate st inp h)]
        rfl
      | pollFailed =>
        try dsimp only
        rw [countRestartWarnings_cons, tick_warned_false rate st inp h,
          ih _ (tick_stuck_mono rate st inp h)]
        rfl
      | normal =>
        try dsimp only
        rw [countRestartWarnings_cons, tick_warned_false rate st inp h,
          ih _ (tick_stuck_mono rate st inp h)]
        rfl

lemma runLoop_warn_le_one (rate : ℚ) (st : ItemState) (inputs : List TickInput) :
    countRestartWarnings (runLoop rate st inputs).2 ≤ 1 := by
  induction inputs generalizing st with
  | nil => exact Nat.zero_le 1
  | cons inp rest ih =>
    simp only [runLoop]
    split_ifs with hc
    · exact Nat.zero_le 1
    · try dsimp only
      cases ho : (tick rate st inp).outcome with
      | completedBreak =>
        try dsimp only
        rw [countRestartWarnings_cons]
        have hnil : countRestartWarnings ([] : List TickResult) = 0 := rfl
        rw [hnil]
        split_ifs <;> omega
      | restarted =>
        try dsimp only
        rw [countRestartWarnings_cons]
        by_cases hw : (tick rate st inp).warned = true
        · rw [if_pos hw,
            runLoop_warn_zero rate _ rest (tick_warned_stuck rate st inp hw)]
        · rw [if_neg hw]
          simpa using ih (tick rate st inp).st
      | pollFailed =>
        try dsimp only
        rw [countRestartWarnings_cons]
        by_cases hw : (tick rate st inp).warned = true
        · rw [if_pos hw,
            runLoop_warn_zero rate _ rest (tick_warned_stuck rate st inp hw)]
        · rw [if_neg hw]
          simpa using ih (tick rate st inp).st
      | normal =>
        try dsimp only
        rw [countRestartWarnings_cons]
        by_cases hw : (tick rate st inp).warned = true
        · rw [if_pos hw,
            runLoop_warn_zero rate _ rest (tick_warned_stuck rate st inp hw)]
        · rw [if_neg hw]
          simpa using ih (tick rate st inp).st

/-- C3. If at the end of a tick (after the poll merge) the cursor has reached
the duration while coverage is below the threshold, the tick ends in the
stall-to-restart transition: cursor reset to 0, the merged watched value
snapshotted as the pre-restart value, the timestamp pointer set to the
sampled wall-clock milliseconds, `is_restarting` set; the warning is emitted
exactly when it had not been shown before, and over any run starting with the
item-initial `stuck_reset_notice_shown = false` the warning is logged at most
once, however many ticks or restarts occur. -/
theorem C3_stall_restart_transition_once (rate : ℚ) (st : ItemState)
    (inp : TickInput) (p : PollData) (hpoll : inp.poll = some p)
    (hstall : (mergePoll (advance rate inp st) p).d
              ≤ (mergePoll (advance rate inp st) p).current_cp)
    (hcov : calculate_coverage (mergePoll (advance rate inp st) p).watched_seconds
              (mergePoll (advance rate inp st) p).d < COVERAGE_THRESHOLD) :
    ((tick rate st inp).outcome = .restarted
     ∧ (tick rate st inp).st.current_cp = 0
     ∧ (tick rate st inp).st.last_watched_before_restart
         = (mergePoll (advance rate inp st) p).watched_seconds
     ∧ (tick rate st inp).st.ts_pointer = inp.wall_ms
     ∧ (tick rate st inp).st.is_restarting = true
     ∧ (tick rate st inp).warned = !st.stuck_reset_notice_shown
     ∧ (tick rate st inp).st.stuck_reset_notice_shown = true)
    ∧ (∀ (st0 : ItemState) (inputs : List TickInput),
        st0.stuck_reset_notice_shown = false →
        countRestartWarnings (runLoop rate st0 inputs).2 ≤ 1) := by
  constructor
  · have hcov' : calculate_coverage
        (mergePoll (advance rate inp st) p).watched_seconds
        (mergePoll (advance rate inp st) p).d < 100 := hcov
    have hni : is_video_completed
        (mergePoll (advance rate inp st) p).watched_seconds
        (mergePoll (advance rate inp st) p).d
        (mergePoll (advance rate inp st) p).completed_flag = false :=
      is_video_completed_false _ _ _ hcov'
    simp only [tick, hpoll]
    rw [if_neg (by rw [hni]; exact Bool.false_ne_true), if_pos ⟨hstall, hcov⟩]
    exact ⟨rfl, rfl, rfl, rfl, rfl,
      by show (!(mergePoll (advance rate inp st) p).stuck_reset_notice_shown)
            = (!st.stuck_reset_notice_shown)
         rw [mergePoll_stuck, advance_stuck], rfl⟩
  · intro st0 inputs _
    exact runLoop_warn_le_one rate st0 inputs

/-- Witness for C3: a stalled tick at `d = 10`, cursor 10, server watched 3,
and a one-tick run with at most one warning. -/
theorem C3_stall_restart_witness :
    (tick 1 ⟨10, 3, 0, 8, 0, false, 0, false⟩
        ⟨2, 100, .ok 200, .ok 200, .ok 200, some ⟨some 3, none, 0⟩, 777⟩).outcome
      = .restarted
    ∧ (tick 1 ⟨10, 3, 0, 8, 0, false, 0, false⟩
        ⟨2, 100, .ok 200, .ok 200, .ok 200, some ⟨some 3, none, 0⟩, 777⟩).st.current_cp
      = 0
    ∧ (tick 1 ⟨10, 3, 0, 8, 0, false, 0, false⟩
        ⟨2, 100, .ok 200, .ok 200, .ok 200, some ⟨some 3, none, 0⟩, 777⟩).st.ts_pointer
      = 777
    ∧ (tick 1 ⟨10, 3, 0, 8, 0, false, 0, false⟩
        ⟨2, 100, .ok 200, .ok 200, .ok 200, some ⟨some 3, none, 0⟩, 777⟩).st.is_restarting
      = true
    ∧ countRestartWarnings
        (runLoop 1 ⟨10, 3, 0, 8, 0, false, 0, false⟩
          [⟨2, 100, .ok 200, .ok 200, .ok 200, some ⟨some 3, none, 0⟩, 777⟩]).2 ≤ 1 := by
  have h := C3_stall_restart_transition_once 1 ⟨10, 3, 0, 8, 0, false, 0, false⟩
    ⟨2, 100, .ok 200, .ok 200, .ok 200, some ⟨some 3, none, 0⟩, 777⟩
    ⟨some 3, none, 0⟩ rfl
    (by norm_num [mergePoll, advance])
    (by norm_num [mergePoll, advance, calculate_coverage, COVERAGE_THRESHOLD])
  exact ⟨h.1.1, h.1.2.1, h.1.2.2.2.1, h.1.2.2.2.2.1, h.2 _ _ rfl⟩

/-! ## C6: monotonicity of the timestamp pointer -/

lemma tick_hb (rate : ℚ) (st : ItemState) (inp : TickInput) :
    (tick rate st inp).hb = mkHeartbeat (advance rate inp st) := by
  simp only [tick]
  cases hp : inp.poll with
  | none => rfl
  | some p =>
    dsimp only
    split_ifs <;> rfl

lemma advance_ts_mono (rate : ℚ) (inp : TickInput) (st : ItemState)
    (hinc : 0 ≤ inp.increment) (hrate : 0 < rate) (hjit : 0 ≤ inp.jitter) :
    st.ts_pointer ≤ (advance rate inp st).ts_pointer := by
  have hx : (0 : ℚ) ≤ inp.increment / rate * 1000 + inp.jitter := by
    have h1 : (0 : ℚ) ≤ inp.increment / rate := div_nonneg hinc hrate.le
    have h2 : (0 : ℚ) ≤ (inp.jitter : ℚ) := by exact_mod_cast hjit
    nlinarith
  have hp : (0 : ℤ) ≤ pyInt (inp.increment / rate * 1000 + inp.jitter) := by
    unfold pyInt
    rw [if_pos hx]
    exact Int.floor_nonneg.mpr hx
  show st.ts_pointer ≤ st.ts_pointer + pyInt (inp.increment / rate * 1000 + inp.jitter)
  omega

/-- C6 counterexample. A realistic two-tick run (`d = 10`, rate `5/4`,
warm-up seed 5, all random draws inside the source's documented ranges,
wall clock 1 s after item start) in which the first tick stalls and restarts:
the restart of line 386 resets the timestamp pointer to the wall clock, which
lags the simulated pointer, so the second heartbeat's `ts` (1002700) is
strictly below the first one's (1004100). -/
theorem C6_counterexample_ts_decreases_after_restart :
    ((runLoop (5/4) ⟨10, 0, 0, 5, 1000000, false, 0, false⟩
        [⟨5, 100, .ok 200, .ok 200, .ok 200, some ⟨some 3, none, 0⟩, 1001000⟩,
         ⟨2, 100, .ok 200, .ok 200, .ok 200, some ⟨some 3, none, 0⟩, 1001000⟩]).2.map
        (fun r => r.hb.ts)) = [1004100, 1002700]
    ∧ ¬ ((1004100 : ℤ) ≤ 1002700)
    ∧ tick_input_range 10
        ⟨5, 100, .ok 200, .ok 200, .ok 200, some ⟨some 3, none, 0⟩, 1001000⟩
    ∧ tick_input_range 10
        ⟨2, 100, .ok 200, .ok 200, .ok 200, some ⟨some 3, none, 0⟩, 1001000⟩
    ∧ rate_range (5/4)
    ∧ warmup_range 10 5 := by
  refine ⟨?_, by norm_num, ?_, ?_, ?_, ?_⟩
  · norm_num [runLoop, tick, advance, mergePoll, mkHeartbeat, pyInt, hbRetryLoop,
      attemptFails, is_video_completed, calculate_coverage, COVERAGE_THRESHOLD]
  · norm_num [tick_input_range, min_def, max_def]
  · norm_num [tick_input_range, min_def, max_def]
  · norm_num [rate_range]
  · norm_num [warmup_range, min_def, max_def]

/-- C6 amended. The timestamp pointer is non-decreasing on every tick that
does not end in the stall-to-restart transition (the advance of line 249
adds a non-negative amount when the draws are in range), and the heartbeat's
`ts` field is exactly the advanced pointer; on a restarting tick the pointer
is instead reset to the sampled wall clock (line 386), which can be smaller
than the pointer it replaces. -/
theorem C6_ts_monotone_without_restart (rate : ℚ) (st : ItemState)
    (inp : TickInput) (hinc : 0 ≤ inp.increment) (hrate : 0 < rate)
    (hjit : 0 ≤ inp.jitter) :
    st.ts_pointer ≤ (advance rate inp st).ts_pointer
    ∧ (tick rate st inp).hb.ts = (advance rate inp st).ts_pointer
    ∧ ((tick rate st inp).outcome ≠ .restarted →
        st.ts_pointer ≤ (tick rate st inp).st.ts_pointer) := by
  refine ⟨advance_ts_mono rate inp st hinc hrate hjit, by rw [tick_hb]; rfl, ?_⟩
  simp only [tick]
  cases hp : inp.poll with
  | none => intro _; exact advance_ts_mono rate inp st hinc hrate hjit
  | some p =>
    dsimp only
    split_ifs with h1 h2
    · intro _
      show st.ts_pointer ≤ (mergePoll (advance rate inp st) p).ts_pointer
      rw [mergePoll_ts]
      exact advance_ts_mono rate inp st hinc hrate hjit
    · intro hno
      exact absurd rfl hno
    · intro _
      show st.ts_pointer ≤ (mergePoll (advance rate inp st) p).ts_pointer
      rw [mergePoll_ts]
      exact advance_ts_mono rate inp st hinc hrate hjit

/-- Witness for C6 (amended) at a concrete poll-failed tick. -/
theorem C6_ts_monotone_witness :
    (100 : ℤ) ≤ (advance 1 ⟨2, 100, .ok 200, .ok 200, .ok 200, none, 0⟩
        ⟨10, 0, 0, 0, 100, false, 0, false⟩).ts_pointer
    ∧ (tick 1 ⟨10, 0, 0, 0, 100, false, 0, false⟩
        ⟨2, 100, .ok 200, .ok 200, .ok 200, none, 0⟩).hb.ts
      = (advance 1 ⟨2, 100, .ok 200, .ok 200, .ok 200, none, 0⟩
        ⟨10, 0, 0, 0, 100, false, 0, false⟩).ts_pointer
    ∧ (100 : ℤ) ≤ (tick 1 ⟨10, 0, 0, 0, 100, false, 0, false⟩
        ⟨2, 100, .ok 200, .ok 200, .ok 200, none, 0⟩).st.ts_pointer := by
  have h := C6_ts_monotone_without_restart 1 ⟨10, 0, 0, 0, 100, false, 0, false⟩
    ⟨2, 100, .ok 200, .ok 200, .ok 200, none, 0⟩ (by norm_num) one_pos (by norm_num)
  exact ⟨h.1, h.2.1, h.2.2 (by simp [tick])⟩

/-! ## C7: the cursor bound against the duration -/

lemma mergePoll_d (st : ItemState) (p : PollData) (hd : ¬ st.d = 0) :
    (mergePoll st p).d = st.d := by
  simp only [mergePoll]
  rw [if_neg hd]
  cases hp : p.watch_length with
  | none => rfl
  | some hw =>
    dsimp only
    split_ifs <;> rfl

/-- C7 counterexample. The normal-phase merge does not preserve the bound:
from `current_cp = 5 ≤ d = 10`, a poll reporting `watch_length = 12` raises
the cursor to 12 > 10. Seeding can also break it: with `d = 1` (< the 5 s
warm-up floor), the legal warm-up draw 7 seeds the cursor to 7 > 1. -/
theorem C7_counterexample_cursor_exceeds_duration :
    (mergePoll ⟨10, 5, 0, 5, 0, false, 0, false⟩ ⟨some 12, none, 0⟩).current_cp = 12
    ∧ ¬ ((mergePoll ⟨10, 5, 0, 5, 0, false, 0, false⟩
          ⟨some 12, none, 0⟩).current_cp ≤ 10)
    ∧ seed_current_cp 0 7 = 7
    ∧ warmup_range 1 7
    ∧ ¬ (seed_current_cp 0 7 ≤ (1 : ℚ)) := by
  refine ⟨by norm_num [mergePoll], by norm_num [mergePoll],
    by norm_num [seed_current_cp], by norm_num [warmup_range, min_def, max_def],
    by norm_num [seed_current_cp]⟩

/-- C7 amended. The per-tick advance clamps the cursor at the duration, so
the cursor at every heartbeat send is ≤ `d` and the payload's `cp` field is
that clamped value rounded to two decimals; the post-poll merge preserves
the bound whenever the server-reported watch length is ≤ `d`; and when the
server reports a watch length above `d`, the merged state is complete, so the
loop breaks before any further heartbeat. -/
theorem C7_cursor_clamped_at_send (rate : ℚ) (st : ItemState) (inp : TickInput)
    (p : PollData) (hw : ℚ) (f : ℤ) :
    (advance rate inp st).current_cp ≤ st.d
    ∧ (tick rate st inp).hb.cp = round2 (advance rate inp st).current_cp
    ∧ (¬ st.d = 0 → p.watch_length = some hw → hw ≤ st.d →
        st.current_cp ≤ st.d → (mergePoll st p).current_cp ≤ st.d)
    ∧ (0 < st.d → p.watch_length = some hw → st.d < hw →
        is_video_completed (mergePoll st p).watched_seconds
          (mergePoll st p).d f = true) := by
  refine ⟨min_le_left _ _, by rw [tick_hb]; rfl, ?_, ?_⟩
  · intro hd hwl hwle hcp
    simp only [mergePoll]
    rw [hwl]
    dsimp only
    rw [if_neg hd]
    split_ifs with h1 h2 h3
    · exact max_le hcp hwle
    · exact max_le hcp hwle
    · exact hcp
    · exact hwle
    · exact hcp
  · intro hd0 hwl hgt
    have hdne : ¬ st.d = 0 := by exact_mod_cast hd0.ne'
    have hdm := mergePoll_d st p hdne
    have hwd : st.d ≤ (mergePoll st p).watched_seconds := by
      simp only [mergePoll]
      rw [hwl]
      dsimp only
      rw [if_neg hdne]
      split_ifs with h1 h2 h3
      · exact hgt.le
      · exact hgt.le
      · push_neg at h2
        exact le_trans hgt.le h2.2
      · exact hgt.le
      · exact hgt.le
    rw [is_video_completed_iff, hdm, coverage_ge_iff _ _ hd0]
    exact hwd

/-- Witness for C7 (amended) at concrete states and polls. -/
theorem C7_cursor_clamped_witness :
    (advance 1 ⟨3, 100, .ok 200, .ok 200, .ok 200, none, 0⟩
        ⟨10, 4, 0, 6, 0, false, 0, false⟩).current_cp ≤ 10
    ∧ (tick 1 ⟨10, 4, 0, 6, 0, false, 0, false⟩
        ⟨3, 100, .ok 200, .ok 200, .ok 200, none, 0⟩).hb.cp
      = round2 (advance 1 ⟨3, 100, .ok 200, .ok 200, .ok 200, none, 0⟩
        ⟨10, 4, 0, 6, 0, false, 0, false⟩).current_cp
    ∧ (mergePoll ⟨10, 4, 0, 6, 0, false, 0, false⟩
        ⟨some 8, none, 0⟩).current_cp ≤ 10
    ∧ is_video_completed (mergePoll ⟨10, 4, 0, 6, 0, false, 0, false⟩
        ⟨some 12, none, 0⟩).watched_seconds
        (mergePoll ⟨10, 4, 0, 6, 0, false, 0, false⟩ ⟨some 12, none, 0⟩).d 0
      = true := by
  have h1 := C7_cursor_clamped_at_send 1 ⟨10, 4, 0, 6, 0, false, 0, false⟩
    ⟨3, 100, .ok 200, .ok 200, .ok 200, none, 0⟩ ⟨some 8, none, 0⟩ 8 0
  have h2 := C7_cursor_clamped_at_send 1 ⟨10, 4, 0, 6, 0, false, 0, false⟩
    ⟨3, 100, .ok 200, .ok 200, .ok 200, none, 0⟩ ⟨some 12, none, 0⟩ 12 0
  exact ⟨h1.1, h1.2.1,
    h1.2.2.1 (by norm_num) rfl (by norm_num) (by norm_num),
    h2.2.2.2 (by norm_num) rfl (by norm_num)⟩

/-! ## C8: heartbeat retry budget and isolation of send failures -/

lemma tick_hb_independent (rate : ℚ) (st : ItemState) (inp : TickInput)
    (o1 o2 o3 : HbAttempt) :
    (tick rate st { inp with hb1 := o1, hb2 := o2, hb3 := o3 }).st
        = (tick rate st inp).st
    ∧ (tick rate st { inp with hb1 := o1, hb2 := o2, hb3 := o3 }).outcome
        = (tick rate st inp).outcome
    ∧ (tick rate st { inp with hb1 := o1, hb2 := o2, hb3 := o3 }).hb
        = (tick rate st inp).hb
    ∧ (tick rate st { inp with hb1 := o1, hb2 := o2, hb3 := o3 }).warned
        = (tick rate st inp).warned := by
  simp only [tick, advance, mkHeartbeat]
  try dsimp only
  cases hp : inp.poll with
  | none => exact ⟨rfl, rfl, rfl, rfl⟩
  | some p =>
    dsimp only
    split_ifs <;> exact ⟨rfl, rfl, rfl, rfl⟩

/-- C8. The heartbeat send of one tick is attempted at most 3 times; when all
three attempts fail (raised transport exception or non-200 status alike) the
loop records exactly 3 attempts, two 0.5 s pauses between consecutive
attempts, and no success — and no exception escapes: the remainder of the
tick (state update, outcome, payload, warning) is identical whatever the
attempt outcomes were, so the loop always proceeds to the progress poll. -/
theorem C8_heartbeat_retry_budget (o1 o2 o3 : HbAttempt) (rate : ℚ)
    (st : ItemState) (inp : TickInput) :
    (hbRetryLoop [o1, o2, o3]).1 ≤ 3
    ∧ (attemptFails o1 = true → attemptFails o2 = true → attemptFails o3 = true →
        hbRetryLoop [o1, o2, o3] = (3, false, 2))
    ∧ (tick rate st { inp with hb1 := o1, hb2 := o2, hb3 := o3 }).st
        = (tick rate st inp).st
    ∧ (tick rate st { inp with hb1 := o1, hb2 := o2, hb3 := o3 }).outcome
        = (tick rate st inp).outcome
    ∧ (tick rate st { inp with hb1 := o1, hb2 := o2, hb3 := o3 }).hb
        = (tick rate st inp).hb := by
  have hind := tick_hb_independent rate st inp o1 o2 o3
  refine ⟨?_, ?_, hind.1, hind.2.1, hind.2.2.1⟩
  · cases h1 : attemptFails o1 <;> cases h2 : attemptFails o2 <;>
      cases h3 : attemptFails o3 <;>
      simp [hbRetryLoop, h1, h2, h3]
  · intro h1 h2 h3
    simp [hbRetryLoop, h1, h2, h3]

/-- Witness for C8: three raised transport exceptions. -/
theorem C8_heartbeat_retry_witness :
    (hbRetryLoop [.exc, .exc, .exc]).1 ≤ 3
    ∧ hbRetryLoop [.exc, .exc, .exc] = (3, false, 2)
    ∧ (tick 1 ⟨10, 0, 0, 0, 0, false, 0, false⟩
        { (⟨2, 100, .ok 200, .ok 200, .ok 200, none, 0⟩ : TickInput) with
          hb1 := .exc, hb2 := .exc, hb3 := .exc }).st
      = (tick 1 ⟨10, 0, 0, 0, 0, false, 0, false⟩
        ⟨2, 100, .ok 200, .ok 200, .ok 200, none, 0⟩).st := by
  have h := C8_heartbeat_retry_budget .exc .exc .exc 1
    ⟨10, 0, 0, 0, 0, false, 0, false⟩ ⟨2, 100, .ok 200, .ok 200, .ok 200, none, 0⟩
  exact ⟨h.1, h.2.1 rfl rfl rfl, h.2.2.1⟩

/-! ## C9: the initial cursor seed -/

/-- C9 counterexample. The claim says the seed is the larger of the server
watched value and a warm-up value floored at 5 and capped by
`min(10% of duration, 60)`. In the code (lines 219-220) a nonzero watched
value is used as-is: with `watched = 3` and warm-up draw 7 (legal for
`d = 600` under either reading) the seed is 3, not `max 3 7 = 7` — and in
particular below the claimed 5-second floor. Moreover the code's warm-up cap
is `min(60, max(10, 10% of duration))`: for `d = 50` the draw 10 is legal in
the code but exceeds the claimed cap `min(5, 60) = 5`. -/
theorem C9_counterexample_seed :
    seed_current_cp 3 7 = 3
    ∧ spec_seed_current_cp 3 7 = 7
    ∧ ¬ seed_current_cp 3 7 = spec_seed_current_cp 3 7
    ∧ spec_warmup_range 600 7
    ∧ warmup_range 50 10
    ∧ ¬ spec_warmup_range 50 10 := by
  refine ⟨?_, ?_, ?_, ?_, ?_, ?_⟩ <;>
    norm_num [seed_current_cp, spec_seed_current_cp, warmup_range,
      spec_warmup_range, min_def, max_def]

/-- C9 amended. At item start the cursor is seeded to `serverWatchedSeconds`
when that value is nonzero, and otherwise to the randomized warm-up value,
which is bounded below by 5 seconds and above by the smaller of 60 seconds
and the larger of 10 seconds and 10% of the duration. -/
theorem C9_seed_amended (watched d warmup : ℚ) (h : warmup_range d warmup) :
    (watched = 0 → seed_current_cp watched warmup = warmup)
    ∧ (¬ watched = 0 → seed_current_cp watched warmup = watched)
    ∧ 5 ≤ warmup ∧ warmup ≤ 60 ∧ warmup ≤ max 10 (d * (1/10)) := by
  obtain ⟨h1, h2⟩ := h
  refine ⟨?_, ?_, h1, le_trans h2 (min_le_left _ _), le_trans h2 (min_le_right _ _)⟩
  · intro hwz
    unfold seed_current_cp
    rw [if_pos hwz]
  · intro hwz
    unfold seed_current_cp
    rw [if_neg hwz]

/-- Witness for C9 (amended) at `watched = 0`, `d = 600`, warm-up 30. -/
theorem C9_seed_amended_witness :
    ((0 : ℚ) = 0 → seed_current_cp 0 30 = 30)
    ∧ (¬ (0 : ℚ) = 0 → seed_current_cp 0 30 = 0)
    ∧ (5 : ℚ) ≤ 30 ∧ (30 : ℚ) ≤ 60 ∧ (30 : ℚ) ≤ max 10 (600 * (1/10)) :=
  C9_seed_amended 0 600 30 (by norm_num [warmup_range, min_def, max_def])

end YuKeTang
